import Mathlib

/-!
Shallow embedding of the Airbnb-Dashboard update pipeline (src/app.py).

The dashboard's only non-trivial logic is the callback `update_num_listings`:
it derives a subset of the listing table from the neighbourhood dropdown
value, computes aggregate statistics over that subset, and builds a map
figure (`make_mapchart`) and a histogram figure (`make_hist`).

The in-memory pandas DataFrame is modelled as a `List Listing`; the columns
the pipeline touches become fields of `Listing`.  Nullable columns
(`minimum_nights_avg_ntm`, `reviews_per_month`) are `Option ℚ`; pandas NaN
results of `.mean()` on an empty series are modelled as `Option.none`;
Python exceptions (`ValueError` from `pd.to_numeric`, `ZeroDivisionError`
from `len(x)/len(y)`) are modelled by `Except PyErr`.  Real-valued
arithmetic is carried out in `ℚ`.
-/

/-- One row of `listings.csv`, restricted to the columns the callback and the
chart builders read. -/
structure Listing where
  name : String
  host_name : String
  host_since : String
  price : String
  accommodates : ℤ
  availability_365 : ℤ
  room_type : String
  latitude : ℚ
  longitude : ℚ
  minimum_nights_avg_ntm : Option ℚ
  reviews_per_month : Option ℚ
  number_of_reviews : ℤ
  neighbourhood_cleansed : String
deriving DecidableEq, Repr

/-- Python exceptions that the callback body can raise. -/
inductive PyErr where
  | valueError
  | zeroDivisionError
deriving DecidableEq, Repr

/-- `guests_not_leaving_review = 0.65` (app.py line 30). -/
def guests_not_leaving_review : ℚ := 0.65

/-- Pandas `.mean()` on a series: `none` (NaN) on the empty series, else the
arithmetic mean. -/
def meanQ : List ℚ → Option ℚ
  | [] => none
  | l => some (l.sum / (l.length : ℚ))

/-- `s.str.replace(c, "")` for a single-character literal pattern (pandas
with `regex=False`): every occurrence of the character is removed. -/
def removeChar (c : Char) (s : String) : String :=
  String.mk (s.toList.filter (fun x => x ≠ c))

/-- `s.str.rstrip(".00")`: Python's `rstrip` treats its argument as a SET of
characters, so every trailing `'.'` or `'0'` is stripped. -/
def rstripDotZero (s : String) : String :=
  String.mk ((s.toList.reverse.dropWhile (fun c => c == '.' || c == '0')).reverse)

/-- Digit list to natural number, most significant first. -/
def digitsToNat (ds : List Char) : ℕ :=
  ds.foldl (fun acc c => acc * 10 + (c.toNat - 48)) 0

/-- `pd.to_numeric` on one cell holding a plain decimal string: an optional
sign, an integer part, an optional `'.'` with a fractional part; any other
shape raises `ValueError`, modelled as `none`. -/
def toNumeric (s : String) : Option ℚ :=
  let (neg, cs) :=
    match s.toList with
    | '-' :: rest => (true, rest)
    | cs => (false, cs)
  let intPart := cs.takeWhile Char.isDigit
  let rest := cs.dropWhile Char.isDigit
  let sign : ℚ := if neg then -1 else 1
  match rest with
  | [] => if intPart.isEmpty then none else some (sign * (digitsToNat intPart : ℚ))
  | '.' :: frac =>
    if frac.all Char.isDigit && !(intPart.isEmpty && frac.isEmpty) then
      some (sign * ((digitsToNat intPart : ℚ) + (digitsToNat frac : ℚ) / (10 ^ frac.length)))
    else none
  | _ => none

/-- The per-cell transformation of app.py line 360:
`price.replace("$","").replace(",","").rstrip(".00")` fed to `to_numeric`. -/
def parsePrice (s : String) : Option ℚ :=
  toNumeric (rstripDotZero (removeChar ',' (removeChar '$' s)))

/-- App.py lines 359–361: mean nightly price of the subset.
`pd.to_numeric` uses its default `errors="raise"`, so one unparseable cell
raises `ValueError`; an empty (but all-parseable) column yields NaN. -/
def price_night (dff : List Listing) : Except PyErr (Option ℚ) :=
  if dff.all (fun r => (parsePrice r.price).isSome) then
    .ok (meanQ (dff.filterMap (fun r => parsePrice r.price)))
  else
    .error .valueError

/-- The row product `minimum_nights_avg_ntm * reviews_per_month`: NaN
(`none`) as soon as either factor is missing, exactly as in pandas. -/
def prodMR (r : Listing) : Option ℚ :=
  match r.minimum_nights_avg_ntm, r.reviews_per_month with
  | some a, some b => some (a * b)
  | _, _ => none

/-- App.py lines 362–366:
`(dff.minimum_nights_avg_ntm * dff.reviews_per_month).dropna().mean() * 12 * (1/(1-guests_not_leaving_review))`. -/
def est_nights_year (dff : List Listing) : Option ℚ :=
  (meanQ (dff.filterMap prodMR)).map
    (fun m => m * 12 * (1 / (1 - guests_not_leaving_review)))

/-- App.py line 367: `est_nights_year / 365` (NaN propagates). -/
def est_occupancy (dff : List Listing) : Option ℚ :=
  (est_nights_year dff).map (fun n => n / 365)

/-- App.py line 368: `price_night * est_nights_year / 12` (NaN propagates;
the `ValueError` of the price parse has already aborted the callback). -/
def estimated_income_month (pn : Option ℚ) (dff : List Listing) : Option ℚ :=
  pn.bind (fun p => (est_nights_year dff).map (fun n => p * n / 12))

/-- One entry of the `customdata` zip of app.py lines 87–96:
(name, host_name, host_since, price, accommodates, availability percentage). -/
abbrev CustomRow := String × String × String × String × ℤ × ℚ

/-- Round half to even (numpy/pandas rounding) on ℚ. -/
def roundHalfEven (q : ℚ) : ℤ :=
  let f := Rat.floor q
  let r := q - (f : ℚ)
  if r < 1 / 2 then f
  else if r > 1 / 2 then f + 1
  else if f % 2 = 0 then f else f + 1

/-- `round(x, 1)` in pandas: one decimal place, ties to even. -/
def round1 (q : ℚ) : ℚ := (roundHalfEven (q * 10) : ℚ) / 10

/-- `round(df["availability_365"] / 365 * 100, 1)` (app.py line 94). -/
def availPerc (a : ℤ) : ℚ := round1 ((a : ℚ) / 365 * 100)

/-- The `customdata` row built for one listing (app.py lines 87–96). -/
def mkCustomRow (r : Listing) : CustomRow :=
  (r.name, r.host_name, r.host_since, r.price, r.accommodates,
    availPerc r.availability_365)

/-- `make_hovertemplate` (app.py lines 80–83) ignores its argument and
returns a fixed template string indexing into `customdata`. -/
def make_hovertemplate (_customdata : List CustomRow) : String :=
  "<b>Apartment: %{customdata[0]}</b><br><b>Host name: </b><b>%{customdata[1]}</b><br><b>Host Since: </b>%{customdata[2]}<br><b>Price: </b>%{customdata[3]} / night<br><b>Person to accommodate: </b>%{customdata[4]}<br><b>Yearly Availability: </b>%{customdata[5]} days/year"

/-- One `scattermapbox` trace dict of app.py lines 102–130. -/
structure Trace where
  lat : List ℚ
  lon : List ℚ
  markerColor : String
  customdata : List CustomRow
  name : String
  hovertemplate : String
deriving DecidableEq, Repr

/-- The mapbox layout of app.py lines 131–145: the centre is the subset mean
of longitude/latitude (`none` = NaN on an empty subset), `uirevision=True`
keeps the camera sticky. -/
structure MapLayout where
  centerLon : Option ℚ
  centerLat : Option ℚ
  uirevision : Bool
  zoom : ℕ
deriving DecidableEq, Repr

/-- The figure returned by `make_mapchart`: the `data` list of three traces
plus the layout. -/
structure MapFigure where
  data : List Trace
  layout : MapLayout
deriving DecidableEq, Repr

/-- `make_mapchart` (app.py lines 86–147).  The single `customdata` list is
built from the WHOLE subset and attached, together with the template, to all
three room-type traces; the coordinates of each trace come from the rows of
its room type. -/
def make_mapchart (df : List Listing) : MapFigure :=
  let customdata := df.map mkCustomRow
  let df_entire_home := df.filter (fun r => r.room_type == "Entire home/apt")
  let df_private_room := df.filter (fun r => r.room_type == "Private room")
  let df_shared_room := df.filter (fun r => r.room_type == "Shared room")
  { data :=
      [ { lat := df_entire_home.map Listing.latitude
          lon := df_entire_home.map Listing.longitude
          markerColor := "red"
          customdata := customdata
          name := "Entire home"
          hovertemplate := make_hovertemplate customdata },
        { lat := df_private_room.map Listing.latitude
          lon := df_private_room.map Listing.longitude
          markerColor := "green"
          customdata := customdata
          name := "Private room"
          hovertemplate := make_hovertemplate customdata },
        { lat := df_shared_room.map Listing.latitude
          lon := df_shared_room.map Listing.longitude
          markerColor := "blue"
          customdata := customdata
          name := "Shared room"
          hovertemplate := make_hovertemplate customdata } ]
    layout :=
      { centerLon := meanQ (df.map Listing.longitude)
        centerLat := meanQ (df.map Listing.latitude)
        uirevision := true
        zoom := 13 } }

/-- One histogram trace of `make_hist`. -/
structure HistTrace where
  y : List String
  markerColor : String
  name : String
deriving DecidableEq, Repr

/-- `make_hist` (app.py lines 60–77): three room-type histograms added in
the order shared, private, entire. -/
def make_hist (df : List Listing) : List HistTrace :=
  [ { y := (df.filter (fun r => r.room_type == "Shared room")).map Listing.room_type
      markerColor := "blue"
      name := "Shared room" },
    { y := (df.filter (fun r => r.room_type == "Private room")).map Listing.room_type
      markerColor := "green"
      name := "Private room" },
    { y := (df.filter (fun r => r.room_type == "Entire home/apt")).map Listing.room_type
      markerColor := "red"
      name := "Entire home/apt" } ]

/-- App.py line 380: `len(dff[dff.room_type == "Entire home/apt"]) / len(dff)`
(only evaluated when `len(dff) ≠ 0`, otherwise Python raises). -/
def ent_home_frac (dff : List Listing) : ℚ :=
  ((dff.filter (fun r => r.room_type == "Entire home/apt")).length : ℚ) /
    (dff.length : ℚ)

/-- App.py line 379: `len(dff) / len(listings)`. -/
def perc_listings_frac (listings dff : List Listing) : ℚ :=
  (dff.length : ℚ) / (listings.length : ℚ)

/-- The eleven-output tuple of the callback (app.py lines 369–381), kept as
semantic values: the presentation-layer string formatting is out of scope,
`Option.none` stands for a NaN that formats as "nan". -/
structure Outputs where
  mapchart : MapFigure
  hist : List HistTrace
  est_nights_year : Option ℚ
  est_occupancy : Option ℚ
  estimated_income_month : Option ℚ
  price_night : Option ℚ
  reviews_listings_month : Option ℚ
  number_of_reviews : ℤ
  num_listings : ℕ
  perc_listings : ℚ
  ent_home_perc : ℚ
deriving DecidableEq, Repr

/-- App.py lines 353–356: the subset derivation.  `none` models the dropdown
sending `None` ("no filter"). -/
def deriveSubset (listings : List Listing) (nbh_cleansed : Option String) :
    List Listing :=
  match nbh_cleansed with
  | some v => listings.filter (fun r => r.neighbourhood_cleansed == v)
  | none => listings

/-- The callback body downstream of the subset: charts, statistics and the
output tuple are all computed from the single subset `dff` (and the full
table only for the percentage denominator). -/
def publishFrom (listings dff : List Listing) : Except PyErr Outputs :=
  let mapchart := make_mapchart dff
  let hist := make_hist dff
  match price_night dff with
  | .error e => .error e
  | .ok pn =>
    if listings.length = 0 then .error .zeroDivisionError
    else if dff.length = 0 then .error .zeroDivisionError
    else
      .ok
        { mapchart := mapchart
          hist := hist
          est_nights_year := est_nights_year dff
          est_occupancy := est_occupancy dff
          estimated_income_month := estimated_income_month pn dff
          price_night := pn
          reviews_listings_month := meanQ (dff.filterMap Listing.reviews_per_month)
          number_of_reviews := (dff.map Listing.number_of_reviews).sum
          num_listings := dff.length
          perc_listings := perc_listings_frac listings dff
          ent_home_perc := ent_home_frac dff }

/-- `update_num_listings` (app.py lines 352–381), written exactly as in the
source: the subset `dff` is bound once from the dropdown value, then charts
and statistics are computed over it and returned together.  The two
`ZeroDivisionError` sites are the Python divisions `len(dff)/len(listings)`
(line 379) and `len(...)/len(dff)` (line 380) in the return tuple. -/
def update_num_listings (listings : List Listing) (nbh_cleansed : Option String) :
    Except PyErr Outputs :=
  let dff :=
    match nbh_cleansed with
    | some v => listings.filter (fun r => r.neighbourhood_cleansed == v)
    | none => listings
  let mapchart := make_mapchart dff
  let hist := make_hist dff
  match price_night dff with
  | .error e => .error e
  | .ok pn =>
    if listings.length = 0 then .error .zeroDivisionError
    else if dff.length = 0 then .error .zeroDivisionError
    else
      .ok
        { mapchart := mapchart
          hist := hist
          est_nights_year := est_nights_year dff
          est_occupancy := est_occupancy dff
          estimated_income_month := estimated_income_month pn dff
          price_night := pn
          reviews_listings_month := meanQ (dff.filterMap Listing.reviews_per_month)
          number_of_reviews := (dff.map Listing.number_of_reviews).sum
          num_listings := dff.length
          perc_listings := perc_listings_frac listings dff
          ent_home_perc := ent_home_frac dff }

/-- Pandas `Series.unique()` on the label column: the distinct values in
first-occurrence order. -/
def uniqueLabels : List String → List String
  | [] => []
  | a :: l => a :: uniqueLabels (l.filter (fun x => x ≠ a))
termination_by l => l.length
decreasing_by
  simpa using Nat.lt_succ_of_le (List.length_filter_le _ _)

/-- Compact listing constructor for concrete test tables (fixed host data,
capacity 2, 180 available days, 10 reviews). -/
def mkL (nm rt nbh pr : String) (la lo : ℚ) (mn rv : Option ℚ) : Listing :=
  { name := nm
    host_name := "host"
    host_since := "2019-05-01"
    price := pr
    accommodates := 2
    availability_365 := 180
    room_type := rt
    latitude := la
    longitude := lo
    minimum_nights_avg_ntm := mn
    reviews_per_month := rv
    number_of_reviews := 10
    neighbourhood_cleansed := nbh }

/-- The spec's own example table: 3 listings, all priced "$100.00", with
2 reviews per month and minimum-nights average 2. -/
def exTable3 : List Listing :=
  [ mkL "A1" "Entire home/apt" "San Marco" "$100.00" 1 2 (some 2) (some 2),
    mkL "A2" "Entire home/apt" "San Marco" "$100.00" 3 4 (some 2) (some 2),
    mkL "A3" "Entire home/apt" "Cannaregio" "$100.00" 5 6 (some 2) (some 2) ]

/-- A one-row table used to exercise the degenerate (empty-subset) filter. -/
def exTable1 : List Listing :=
  [ mkL "B1" "Private room" "San Marco" "$95.50" 1 2 (some 2) (some 1) ]

/-- A table whose single price string is not numeric. -/
def exTableBad : List Listing :=
  [ mkL "C1" "Private room" "San Marco" "not a price" 1 2 (some 2) (some 1) ]

/-- Two listings of different room types and different names: row 0 is a
private room, row 1 an entire home. -/
def exMapA : Listing := mkL "MapA" "Private room" "Dorsoduro" "$80.00" 10 20 (some 1) (some 1)

/-- Second listing of the two-row map example. -/
def exMapB : Listing := mkL "MapB" "Entire home/apt" "Dorsoduro" "$90.00" 30 40 (some 1) (some 1)

/-- The two-row map example table, private room first. -/
def exMapTable : List Listing := [exMapA, exMapB]

/-- A three-row table with one listing of each room type. -/
def exTableRooms : List Listing :=
  [ mkL "R1" "Entire home/apt" "Castello" "$100.00" 1 2 (some 2) (some 2),
    mkL "R2" "Private room" "Castello" "$50.50" 3 4 (some 1) (some 1),
    mkL "R3" "Shared room" "Giudecca" "$20.50" 5 6 none (some 1) ]

/-- A two-row table whose second price string is not numeric. -/
def exTableBad2 : List Listing :=
  [ mkL "D1" "Private room" "San Marco" "$50.50" 1 2 (some 2) (some 1),
    mkL "D2" "Private room" "San Marco" "oops" 3 4 (some 2) (some 1) ]

/-- A row has both activity fields present (no NaN). -/
def bothPresent (r : Listing) : Bool :=
  r.minimum_nights_avg_ntm.isSome && r.reviews_per_month.isSome

/-- Spec-side formula for comparison: the mean of
`minimum_nights_avg_ntm * reviews_per_month` taken over exactly the rows
where both fields are present. -/
def specMeanProduct (dff : List Listing) : Option ℚ :=
  meanQ ((dff.filter bothPresent).map
    (fun r => r.minimum_nights_avg_ntm.getD 0 * r.reviews_per_month.getD 0))

/-! ### Helper lemmas -/

/-- The callback body is `publishFrom` applied to the subset produced by
`deriveSubset`: the subset is derived once and every output flows from it. -/
theorem update_eq_publishFrom (t : List Listing) (v : Option String) :
    update_num_listings t v = publishFrom t (deriveSubset t v) := by
  cases v <;> rfl

theorem meanQ_of_ne_nil (l : List ℚ) (h : l ≠ []) :
    meanQ l = some (l.sum / (l.length : ℚ)) := by
  cases l with
  | nil => exact absurd rfl h
  | cons a l => rfl

/-- The stripped form of the spec's example price: `rstrip(".00")` eats every
trailing `'0'` and `'.'`, leaving the single character "1". -/
theorem stripped_100 : rstripDotZero (removeChar ',' (removeChar '$' "$100.00")) = "1" := by
  decide

theorem parsePrice_100 : parsePrice "$100.00" = some 1 := by
  rw [parsePrice, stripped_100]
  simp [toNumeric, digitsToNat]

theorem price_night_exTable3 : price_night exTable3 = .ok (some 1) := by
  have hall : exTable3.all (fun r => (parsePrice r.price).isSome) = true := by
    simp [exTable3, mkL, parsePrice_100]
  have hfm : exTable3.filterMap (fun r => parsePrice r.price) = [1, 1, 1] := by
    simp [exTable3, mkL, parsePrice_100]
  rw [price_night, if_pos hall, hfm]
  norm_num [meanQ]

/-- C1: FAILED by the code (code bug).  On the spec's own example — three
listings all priced "$100.00", no filter — the published mean nightly price
is 1, not 100: `rstrip(".00")` strips every trailing '0' and '.', so
"$100.00" is truncated to "1" before `to_numeric`. -/
theorem price_mean_is_one_not_hundred_on_spec_example :
    (update_num_listings exTable3 none).map Outputs.price_night = .ok (some 1) ∧
      ((1 : ℚ) ≠ 100) := by
  constructor
  · rw [update_eq_publishFrom]
    show (publishFrom exTable3 exTable3).map Outputs.price_night = _
    simp only [publishFrom, price_night_exTable3]
    norm_num [exTable3]
    rfl
  · norm_num

/-- C10: every trace of the map figure carries the customdata list and the
hovertemplate built from the WHOLE subset, not from the rows of its own
room type. -/
theorem mapchart_customdata_shared_across_traces (df : List Listing) :
    (make_mapchart df).data.map Trace.customdata =
        [df.map mkCustomRow, df.map mkCustomRow, df.map mkCustomRow] ∧
      (make_mapchart df).data.map Trace.hovertemplate =
        [make_hovertemplate (df.map mkCustomRow),
          make_hovertemplate (df.map mkCustomRow),
          make_hovertemplate (df.map mkCustomRow)] :=
  ⟨rfl, rfl⟩

/-- C2 counterexample: a dropdown value matching no row of a non-empty table
produces an empty subset, and the callback then raises `ZeroDivisionError`
(at `len(dff[...]) / len(dff)`) instead of publishing not-available values. -/
theorem empty_subset_raises_zero_division :
    deriveSubset exTable1 (some "Nowhere") = [] ∧
      update_num_listings exTable1 (some "Nowhere") = .error .zeroDivisionError :=
  ⟨rfl, rfl⟩

/-- C2 (amended): on an empty subset every mean-based aggregate evaluates to
the NaN sentinel and the count-based ones to zero, but the callback itself
aborts with `ZeroDivisionError` when it divides by `len(dff)` for the
entire-home percentage, so nothing is published. -/
theorem empty_subset_aborts_update (t : List Listing) (v : Option String)
    (h1 : deriveSubset t v = []) (h2 : t ≠ []) :
    update_num_listings t v = .error .zeroDivisionError ∧
      price_night [] = .ok none ∧
      est_nights_year [] = none ∧
      est_occupancy [] = none ∧
      estimated_income_month none [] = none ∧
      meanQ (List.filterMap Listing.reviews_per_month []) = none ∧
      (List.map Listing.number_of_reviews []).sum = 0 ∧
      ([] : List Listing).length = 0 := by
  refine ⟨?_, rfl, rfl, rfl, rfl, rfl, rfl, rfl⟩
  rw [update_eq_publishFrom, h1]
  have ht : ¬ t.length = 0 := by simpa [List.length_eq_zero] using h2
  simp [publishFrom, price_night, meanQ, ht]

/-- C2 witness: the amended statement at a concrete input. -/
theorem empty_subset_aborts_update_witness :
    update_num_listings exTable1 (some "Giudecca") = .error .zeroDivisionError ∧
      price_night [] = .ok none ∧
      est_nights_year [] = none ∧
      est_occupancy [] = none ∧
      estimated_income_month none [] = none ∧
      meanQ (List.filterMap Listing.reviews_per_month []) = none ∧
      (List.map Listing.number_of_reviews []).sum = 0 ∧
      ([] : List Listing).length = 0 :=
  empty_subset_aborts_update exTable1 (some "Giudecca") rfl (by decide)

/-- C3 counterexample: one malformed price string makes the whole callback
raise `ValueError` (`pd.to_numeric` with its default `errors="raise"`);
the malformed row is not dropped and no mean is produced. -/
theorem malformed_price_aborts_concrete :
    parsePrice "not a price" = none ∧
      update_num_listings exTableBad none = .error .valueError :=
  ⟨rfl, rfl⟩

/-- C3 (amended): whenever the subset contains a row whose price string does
not parse, the callback aborts with `ValueError` instead of excluding the
row and averaging the rest. -/
theorem malformed_price_aborts_update (t : List Listing) (v : Option String)
    (r : Listing) (hr : r ∈ deriveSubset t v) (hbad : parsePrice r.price = none) :
    update_num_listings t v = .error .valueError := by
  rw [update_eq_publishFrom]
  have hall : (deriveSubset t v).all (fun r => (parsePrice r.price).isSome) = false := by
    rw [List.all_eq_false]
    exact ⟨r, hr, by simp [hbad]⟩
  simp [publishFrom, price_night, hall]

/-- C3 witness: the amended statement at a concrete two-row input whose
second row is malformed. -/
theorem malformed_price_aborts_update_witness :
    update_num_listings exTableBad2 none = .error .valueError :=
  malformed_price_aborts_update exTableBad2 none
    (mkL "D2" "Private room" "San Marco" "oops" 3 4 (some 2) (some 1))
    (by decide) rfl

theorem publishFrom_components (t d : List Listing) :
    (publishFrom t d).map Outputs.mapchart = (publishFrom t d).map (fun _ => make_mapchart d) ∧
      (publishFrom t d).map Outputs.hist = (publishFrom t d).map (fun _ => make_hist d) ∧
      (publishFrom t d).map Outputs.num_listings = (publishFrom t d).map (fun _ => d.length) ∧
      (publishFrom t d).map Outputs.ent_home_perc = (publishFrom t d).map (fun _ => ent_home_frac d) := by
  rcases hpn : price_night d with e | pn <;> simp only [publishFrom, hpn]
  · exact ⟨rfl, rfl, rfl, rfl⟩
  · split_ifs <;> exact ⟨rfl, rfl, rfl, rfl⟩

/-- C5: in a single update the subset is derived exactly once
(`deriveSubset`), the whole callback factors through that one subset, and
each published payload (map figure, histogram, listing count, entire-home
fraction) is the corresponding component function applied to that same
subset. -/
theorem update_uses_single_subset (t : List Listing) (v : Option String) :
    update_num_listings t v = publishFrom t (deriveSubset t v) ∧
      (update_num_listings t v).map Outputs.mapchart =
        (update_num_listings t v).map (fun _ => make_mapchart (deriveSubset t v)) ∧
      (update_num_listings t v).map Outputs.hist =
        (update_num_listings t v).map (fun _ => make_hist (deriveSubset t v)) ∧
      (update_num_listings t v).map Outputs.num_listings =
        (update_num_listings t v).map (fun _ => (deriveSubset t v).length) ∧
      (update_num_listings t v).map Outputs.ent_home_perc =
        (update_num_listings t v).map (fun _ => ent_home_frac (deriveSubset t v)) := by
  refine ⟨update_eq_publishFrom t v, ?_⟩
  rw [update_eq_publishFrom]
  exact publishFrom_components t (deriveSubset t v)

/-- The pandas column product with `dropna` keeps exactly the rows where
both factors are present. -/
theorem filterMap_prodMR_eq (dff : List Listing) :
    dff.filterMap prodMR =
      (dff.filter bothPresent).map
        (fun r => r.minimum_nights_avg_ntm.getD 0 * r.reviews_per_month.getD 0) := by
  induction dff with
  | nil => rfl
  | cons r l ih =>
    rcases hm : r.minimum_nights_avg_ntm with _ | a <;>
      rcases hr : r.reviews_per_month with _ | b <;>
        simp [prodMR, bothPresent, hm, hr, ih]

/-- C4: the estimated-activity outputs.  The estimated nights/year is the
spec-side mean over rows with both activity fields present, scaled by 12 and
1/(1-R) with R = guests_not_leaving_review = 0.65; occupancy divides it by
365; monthly income multiplies it by the mean price and divides by 12. -/
theorem estimated_activity_formulas (dff : List Listing) (p m : ℚ)
    (_hp : price_night dff = .ok (some p))
    (hm : specMeanProduct dff = some m) :
    est_nights_year dff = some (m * 12 * (1 / (1 - guests_not_leaving_review))) ∧
      guests_not_leaving_review = 0.65 ∧
      est_occupancy dff = some (m * 12 * (1 / (1 - guests_not_leaving_review)) / 365) ∧
      estimated_income_month (some p) dff =
        some (p * (m * 12 * (1 / (1 - guests_not_leaving_review))) / 12) := by
  have hn : est_nights_year dff =
      some (m * 12 * (1 / (1 - guests_not_leaving_review))) := by
    rw [est_nights_year, filterMap_prodMR_eq]
    rw [specMeanProduct] at hm
    rw [hm]
    rfl
  refine ⟨hn, rfl, ?_, ?_⟩
  · rw [est_occupancy, hn]; rfl
  · rw [estimated_income_month, hn]; rfl

theorem specMeanProduct_exTable3 : specMeanProduct exTable3 = some 4 := by
  have h : (exTable3.filter bothPresent).map
      (fun r => r.minimum_nights_avg_ntm.getD 0 * r.reviews_per_month.getD 0) =
      [2 * 2, 2 * 2, 2 * 2] := by
    simp [exTable3, mkL, bothPresent]
  rw [specMeanProduct, h]
  norm_num [meanQ]

/-- C4 witness: the formulas at the spec's example table (mean product 4,
estimated nights/year 4·12/0.35 = 960/7 ≈ 137). -/
theorem estimated_activity_formulas_witness :
    est_nights_year exTable3 = some (4 * 12 * (1 / (1 - guests_not_leaving_review))) ∧
      guests_not_leaving_review = 0.65 ∧
      est_occupancy exTable3 = some (4 * 12 * (1 / (1 - guests_not_leaving_review)) / 365) ∧
      estimated_income_month (some 1) exTable3 =
        some (1 * (4 * 12 * (1 / (1 - guests_not_leaving_review))) / 12) :=
  estimated_activity_formulas exTable3 1 4 price_night_exTable3 specMeanProduct_exTable3

/-- `unique()` of a non-empty constant column is the one-element list. -/
theorem uniqueLabels_of_all_eq (l : List String) (L : String)
    (hne : l ≠ []) (hall : ∀ x ∈ l, x = L) : uniqueLabels l = [L] := by
  cases l with
  | nil => exact absurd rfl hne
  | cons a rest =>
    have ha : a = L := hall a (List.mem_cons_self a rest)
    have hrest : rest.filter (fun x => x ≠ a) = [] := by
      rw [List.filter_eq_nil_iff]
      intro x hx
      simp [hall x (List.mem_cons_of_mem a hx), ha]
    rw [uniqueLabels, hrest, ha, uniqueLabels]

/-- C6: filtering on a label present in the table yields a non-empty subset
all of whose rows carry that label, and the subset's own distinct-label list
is exactly the one-element list of that label. -/
theorem filter_by_label_roundtrip (t : List Listing) (L : String)
    (h : L ∈ t.map Listing.neighbourhood_cleansed) :
    deriveSubset t (some L) ≠ [] ∧
      (∀ r ∈ deriveSubset t (some L), r.neighbourhood_cleansed = L) ∧
      uniqueLabels ((deriveSubset t (some L)).map Listing.neighbourhood_cleansed) = [L] := by
  obtain ⟨r, hrt, hrL⟩ := List.mem_map.mp h
  have hmem : r ∈ deriveSubset t (some L) := by
    simp [deriveSubset, List.mem_filter, hrt, hrL]
  have hall : ∀ s ∈ deriveSubset t (some L), s.neighbourhood_cleansed = L := by
    intro s hs
    have h2 := (List.mem_filter.mp hs).2
    simpa using h2
  refine ⟨List.ne_nil_of_mem hmem, hall, ?_⟩
  apply uniqueLabels_of_all_eq
  · intro hmap
    exact List.ne_nil_of_mem hmem (List.map_eq_nil_iff.mp hmap)
  · intro x hx
    obtain ⟨s, hs, hxL⟩ := List.mem_map.mp hx
    exact hxL ▸ hall s hs

/-- C6 witness: the round trip at "San Marco" in the example table. -/
theorem filter_by_label_roundtrip_witness :
    deriveSubset exTable3 (some "San Marco") ≠ [] ∧
      (∀ r ∈ deriveSubset exTable3 (some "San Marco"),
        r.neighbourhood_cleansed = "San Marco") ∧
      uniqueLabels ((deriveSubset exTable3 (some "San Marco")).map
        Listing.neighbourhood_cleansed) = ["San Marco"] :=
  filter_by_label_roundtrip exTable3 "San Marco" (by decide)

/-- C7: the entire-home percentage lies in [0,100] for every non-empty
subset, equals 100 when every row is an entire home, and the listing-count
percentage of the unfiltered update is 100. -/
theorem percentage_bounds (t dff : List Listing) (hd : dff ≠ []) (ht : t ≠ []) :
    0 ≤ 100 * ent_home_frac dff ∧
      100 * ent_home_frac dff ≤ 100 ∧
      ((∀ r ∈ dff, r.room_type = "Entire home/apt") → 100 * ent_home_frac dff = 100) ∧
      100 * perc_listings_frac t (deriveSubset t none) = 100 := by
  have hdpos : (0 : ℚ) < (dff.length : ℚ) := by
    exact_mod_cast Nat.pos_of_ne_zero (by simpa [List.length_eq_zero] using hd)
  have htpos : (0 : ℚ) < (t.length : ℚ) := by
    exact_mod_cast Nat.pos_of_ne_zero (by simpa [List.length_eq_zero] using ht)
  refine ⟨?_, ?_, ?_, ?_⟩
  · have h0 : (0 : ℚ) ≤ ent_home_frac dff :=
      div_nonneg (by positivity) hdpos.le
    linarith
  · have hle : ((dff.filter (fun r => r.room_type == "Entire home/apt")).length : ℚ) ≤
        (dff.length : ℚ) := by
      exact_mod_cast List.length_filter_le _ dff
    have h1 : ent_home_frac dff ≤ 1 := by
      rw [ent_home_frac]
      exact (div_le_one hdpos).mpr hle
    linarith
  · intro hall
    have hfe : dff.filter (fun r => r.room_type == "Entire home/apt") = dff := by
      apply List.filter_eq_self.mpr
      intro a ha
      simpa using hall a ha
    rw [ent_home_frac, hfe, div_self hdpos.ne']
    norm_num
  · show 100 * perc_listings_frac t t = 100
    rw [perc_listings_frac, div_self htpos.ne']
    norm_num

/-- C7 witness: the bounds at the all-entire-home example table. -/
theorem percentage_bounds_witness :
    0 ≤ 100 * ent_home_frac exTable3 ∧
      100 * ent_home_frac exTable3 ≤ 100 ∧
      ((∀ r ∈ exTable3, r.room_type = "Entire home/apt") →
        100 * ent_home_frac exTable3 = 100) ∧
      100 * perc_listings_frac exTable3 (deriveSubset exTable3 none) = 100 :=
  percentage_bounds exTable3 exTable3 (by decide) (by decide)

/-- Membership is preserved by `unique()`. -/
theorem mem_uniqueLabels (l : List String) (x : String) :
    x ∈ uniqueLabels l ↔ x ∈ l := by
  induction l using uniqueLabels.induct with
  | case1 => rw [uniqueLabels]
  | case2 a l ih =>
    rw [uniqueLabels, List.mem_cons, ih, List.mem_filter]
    by_cases hx : x = a <;> simp [hx]

/-- `unique()` returns pairwise-distinct labels. -/
theorem nodup_uniqueLabels (l : List String) : (uniqueLabels l).Nodup := by
  induction l using uniqueLabels.induct with
  | case1 => rw [uniqueLabels]; exact List.nodup_nil
  | case2 a l ih =>
    rw [uniqueLabels, List.nodup_cons]
    refine ⟨fun hmem => ?_, ih⟩
    have := (mem_uniqueLabels _ _).mp hmem
    simp [List.mem_filter] at this

/-- Counting a disjunction of two row predicates that never hold together
splits into the two separate counts. -/
theorem length_filter_or {α : Type} (p q : α → Bool) (l : List α)
    (hdisj : ∀ x ∈ l, ¬(p x = true ∧ q x = true)) :
    (l.filter (fun x => p x || q x)).length =
      (l.filter p).length + (l.filter q).length := by
  induction l with
  | nil => rfl
  | cons a l ih =>
    have ha := hdisj a (List.mem_cons_self a l)
    have ihl := ih (fun x hx => hdisj x (List.mem_cons_of_mem a hx))
    by_cases hp : p a = true <;> by_cases hq : q a = true
    · exact absurd ⟨hp, hq⟩ ha
    all_goals simp [List.filter_cons, hp, hq, ihl] <;> omega

/-- Summing per-label subset sizes over any duplicate-free label list counts
exactly the rows whose label belongs to the list. -/
theorem sum_label_counts (t : List Listing) (M : List String) (hnd : M.Nodup) :
    (M.map (fun L => (t.filter
        (fun r => r.neighbourhood_cleansed == L)).length)).sum =
      (t.filter (fun r => decide (r.neighbourhood_cleansed ∈ M))).length := by
  induction M with
  | nil =>
    simp
  | cons L M ih =>
    have hLM : L ∉ M := (List.nodup_cons.mp hnd).1
    have hM := ih (List.nodup_cons.mp hnd).2
    simp only [List.map_cons, List.sum_cons, hM]
    rw [← length_filter_or _ _ _ ?_]
    · congr 1
      apply List.filter_congr
      intro x _
      by_cases h : x.neighbourhood_cleansed = L <;> simp [h, List.mem_cons]
    · intro x _ hpq
      obtain ⟨h1, h2⟩ := hpq
      rw [beq_iff_eq] at h1
      rw [decide_eq_true_eq] at h2
      exact hLM (h1 ▸ h2)

/-- C8: filtering on each distinct neighbourhood label partitions the table:
the per-label subset sizes sum to the total listing count. -/
theorem neighbourhood_counts_partition (t : List Listing) :
    ((uniqueLabels (t.map Listing.neighbourhood_cleansed)).map
      (fun L => (deriveSubset t (some L)).length)).sum = t.length := by
  have hnd := nodup_uniqueLabels (t.map Listing.neighbourhood_cleansed)
  have h := sum_label_counts t _ hnd
  simp only [deriveSubset]
  rw [h]
  have hself : t.filter (fun r => decide (r.neighbourhood_cleansed ∈
      uniqueLabels (t.map Listing.neighbourhood_cleansed))) = t := by
    apply List.filter_eq_self.mpr
    intro a ha
    rw [decide_eq_true_eq]
    exact (mem_uniqueLabels _ _).mpr (List.mem_map_of_mem _ ha)
  rw [hself]

/-- C9 counterexample: in the two-row example ([private exMapA, entire
exMapB]) the entire-home trace's single point has exMapB's coordinate, yet
the customdata row its tooltip indexes at position 0 is exMapA's, so a
point's tooltip does NOT combine that listing's own fields. -/
theorem map_tooltip_misaligned :
    (make_mapchart exMapTable).data.map (fun tr => (tr.lat, tr.customdata[0]?)) =
      [([exMapB.latitude], some (mkCustomRow exMapA)),
        ([exMapA.latitude], some (mkCustomRow exMapA)),
        ([], some (mkCustomRow exMapA))] ∧
      mkCustomRow exMapA ≠ mkCustomRow exMapB := by
  refine ⟨rfl, fun h => ?_⟩
  have hfst := congrArg Prod.fst h
  simp [mkCustomRow, exMapA, exMapB, mkL] at hfst

/-- C9 (amended): one point per listing on the trace of its room type with
the fixed colors red/green/blue, the camera centred on the subset's mean
coordinates with a sticky viewport — but every trace carries the customdata
list of the WHOLE subset, so the tooltip at point i of a trace shows row i
of the subset, not row i of that trace. -/
theorem mapchart_structure (dff : List Listing) (hne : dff ≠ [])
    (hrt : ∀ r ∈ dff, r.room_type = "Entire home/apt" ∨
      r.room_type = "Private room" ∨ r.room_type = "Shared room") :
    (make_mapchart dff).data.map Trace.markerColor = ["red", "green", "blue"] ∧
      (make_mapchart dff).data.map Trace.lat =
        [(dff.filter (fun r => r.room_type == "Entire home/apt")).map Listing.latitude,
          (dff.filter (fun r => r.room_type == "Private room")).map Listing.latitude,
          (dff.filter (fun r => r.room_type == "Shared room")).map Listing.latitude] ∧
      (make_mapchart dff).data.map Trace.lon =
        [(dff.filter (fun r => r.room_type == "Entire home/apt")).map Listing.longitude,
          (dff.filter (fun r => r.room_type == "Private room")).map Listing.longitude,
          (dff.filter (fun r => r.room_type == "Shared room")).map Listing.longitude] ∧
      ((make_mapchart dff).data.map (fun tr => tr.lat.length)).sum = dff.length ∧
      (make_mapchart dff).data.map Trace.customdata =
        [dff.map mkCustomRow, dff.map mkCustomRow, dff.map mkCustomRow] ∧
      (make_mapchart dff).layout.centerLat =
        some ((dff.map Listing.latitude).sum / ((dff.map Listing.latitude).length : ℚ)) ∧
      (make_mapchart dff).layout.centerLon =
        some ((dff.map Listing.longitude).sum / ((dff.map Listing.longitude).length : ℚ)) ∧
      (make_mapchart dff).layout.uirevision = true := by
  have hmapLat : dff.map Listing.latitude ≠ [] :=
    fun hmap => hne (List.map_eq_nil_iff.mp hmap)
  have hmapLon : dff.map Listing.longitude ≠ [] :=
    fun hmap => hne (List.map_eq_nil_iff.mp hmap)
  have hA : (dff.filter (fun r => (r.room_type == "Private room") ||
        (r.room_type == "Shared room"))).length =
      (dff.filter (fun r => r.room_type == "Private room")).length +
        (dff.filter (fun r => r.room_type == "Shared room")).length := by
    apply length_filter_or
    intro x _ hpq
    obtain ⟨h1, h2⟩ := hpq
    rw [beq_iff_eq] at h1 h2
    rw [h1] at h2
    simp at h2
  have hB : (dff.filter (fun r => (r.room_type == "Entire home/apt") ||
        ((r.room_type == "Private room") || (r.room_type == "Shared room")))).length =
      (dff.filter (fun r => r.room_type == "Entire home/apt")).length +
        (dff.filter (fun r => (r.room_type == "Private room") ||
          (r.room_type == "Shared room"))).length := by
    apply length_filter_or
    intro x _ hpq
    obtain ⟨h1, h2⟩ := hpq
    rw [beq_iff_eq] at h1
    rw [Bool.or_eq_true, beq_iff_eq, beq_iff_eq] at h2
    rcases h2 with h2 | h2 <;> rw [h1] at h2 <;> simp at h2
  have hall : dff.filter (fun r => (r.room_type == "Entire home/apt") ||
      ((r.room_type == "Private room") || (r.room_type == "Shared room"))) = dff := by
    apply List.filter_eq_self.mpr
    intro a ha
    rcases hrt a ha with h | h | h <;> simp [h]
  refine ⟨rfl, rfl, rfl, ?_, rfl, ?_, ?_, rfl⟩
  · show ((dff.filter (fun r => r.room_type == "Entire home/apt")).map
        Listing.latitude).length +
      (((dff.filter (fun r => r.room_type == "Private room")).map
        Listing.latitude).length +
        (((dff.filter (fun r => r.room_type == "Shared room")).map
          Listing.latitude).length + 0)) = dff.length
    simp only [List.length_map]
    have hlen := congrArg List.length hall
    rw [hB, hA] at hlen
    omega
  · show meanQ (dff.map Listing.latitude) = _
    rw [meanQ_of_ne_nil _ hmapLat]
  · show meanQ (dff.map Listing.longitude) = _
    rw [meanQ_of_ne_nil _ hmapLon]

/-- C9 witness: the amended map payload facts at the three-room-type table. -/
theorem mapchart_structure_witness :
    (make_mapchart exTableRooms).data.map Trace.markerColor = ["red", "green", "blue"] ∧
      (make_mapchart exTableRooms).data.map Trace.lat =
        [(exTableRooms.filter (fun r => r.room_type == "Entire home/apt")).map Listing.latitude,
          (exTableRooms.filter (fun r => r.room_type == "Private room")).map Listing.latitude,
          (exTableRooms.filter (fun r => r.room_type == "Shared room")).map Listing.latitude] ∧
      (make_mapchart exTableRooms).data.map Trace.lon =
        [(exTableRooms.filter (fun r => r.room_type == "Entire home/apt")).map Listing.longitude,
          (exTableRooms.filter (fun r => r.room_type == "Private room")).map Listing.longitude,
          (exTableRooms.filter (fun r => r.room_type == "Shared room")).map Listing.longitude] ∧
      ((make_mapchart exTableRooms).data.map (fun tr => tr.lat.length)).sum =
        exTableRooms.length ∧
      (make_mapchart exTableRooms).data.map Trace.customdata =
        [exTableRooms.map mkCustomRow, exTableRooms.map mkCustomRow,
          exTableRooms.map mkCustomRow] ∧
      (make_mapchart exTableRooms).layout.centerLat =
        some ((exTableRooms.map Listing.latitude).sum /
          ((exTableRooms.map Listing.latitude).length : ℚ)) ∧
      (make_mapchart exTableRooms).layout.centerLon =
        some ((exTableRooms.map Listing.longitude).sum /
          ((exTableRooms.map Listing.longitude).length : ℚ)) ∧
      (make_mapchart exTableRooms).layout.uirevision = true :=
  mapchart_structure exTableRooms (by decide) (by decide)
